import Mathlib

/-!
Shallow embedding of `src/base-api-client.js` (class `BaseApiService`).

The class is a stateless HTTP client wrapper: six verb methods
(`get`, `post`, `put`, `patch`, `delete`, `upload`) build a request from a
`RequestConfig`, hand it to the platform `fetch`, and run the response
through `handleResponse`.  We embed the request-building phase as pure
functions producing a `Request` value, model the platform response as a
`Response` value whose body is either a parsed JSON value or a parse
failure, and embed `handleResponse` as a function into `Except`.

Platform primitives (`fetch`, `new URL`, `FormData`, `JSON.stringify`,
`Response.json`, JS string conversion) are modelled explicitly; JS
`undefined` is modelled by `Option.none`.
-/

namespace BaseApiService

/-- JSON values, the payloads this client sends and receives.
JS `undefined` is not a JSON value; it is modelled by `Option` at use sites. -/
inductive JVal where
  | null
  | bool (b : Bool)
  | num (n : Int)
  | str (s : String)
  | arr (elems : List JVal)
  | obj (fields : List (String × JVal))
deriving Repr

/-- Property access `j[k]` on a parsed JSON value: `none` models JS
`undefined` (missing key, or access on a non-object). -/
def jget (j : JVal) (k : String) : Option JVal :=
  match j with
  | .obj fields => fields.lookup k
  | _ => none

/-- Model of the JS string conversion `String(x)` applied to a JSON value
(used by the `Error` constructor on `json.message`).  Array conversion is
approximated by comma-joining element conversions. -/
def jsToString : JVal → String
  | .null => "null"
  | .bool true => "true"
  | .bool false => "false"
  | .num n => toString n
  | .str s => s
  | .arr elems => String.intercalate "," (elems.attach.map (fun e => jsToString e.1))
  | .obj _ => "[object Object]"
decreasing_by
  have := List.sizeOf_lt_of_mem e.2
  simp only [JVal.arr.sizeOf_spec]
  omega

/-- Model of `new Error(m).message`: `undefined` gives the empty message,
anything else is string-converted. -/
def messageOf : Option JVal → String
  | none => ""
  | some j => jsToString j

/-- Minimal model of JSON string escaping used by `JSON.stringify`. -/
def escapeJson (s : String) : String :=
  String.join (s.toList.map (fun c =>
    if c = '"' then "\\\"" else if c = '\\' then "\\\\" else String.singleton c))

/-- Model of the platform primitive `JSON.stringify` on JSON values. -/
def jsonStringify : JVal → String
  | .null => "null"
  | .bool true => "true"
  | .bool false => "false"
  | .num n => toString n
  | .str s => "\"" ++ escapeJson s ++ "\""
  | .arr elems =>
      "[" ++ String.intercalate "," (elems.attach.map (fun e => jsonStringify e.1)) ++ "]"
  | .obj fields =>
      "\x7b" ++ String.intercalate ","
        (fields.attach.map (fun p =>
          "\"" ++ escapeJson p.1.1 ++ "\":" ++ jsonStringify p.1.2))
        ++ "\x7d"
decreasing_by
  · have := List.sizeOf_lt_of_mem e.2
    simp only [JVal.arr.sizeOf_spec]
    omega
  · have h1 := List.sizeOf_lt_of_mem p.2
    have h2 : sizeOf p.1.2 < sizeOf p.1 := by
      obtain ⟨⟨a, b⟩, hp⟩ := p
      simp only [Prod.mk.sizeOf_spec]
      omega
    simp only [JVal.obj.sizeOf_spec]
    omega

/-- `RequestConfig` from the source's typedef: `endpoint` required;
`data`, `headers`, `query` optional (`none` models an absent field).
A `query` value of `none` models an entry explicitly set to `undefined`. -/
structure RequestConfig where
  endpoint : String
  data : Option JVal
  headers : Option (List (String × String))
  query : Option (List (String × Option String))
deriving Repr

/-- `process.env.API_URL || "http://localhost:3001"`: the environment
variable (a string when set) is used unless it is absent or empty —
JS `||` falls through on the falsy empty string. -/
def apiOrigin (env : Option String) : String :=
  match env with
  | some s => if s = "" then "http://localhost:3001" else s
  | none => "http://localhost:3001"

/-- Model of the platform `URL` object as built by the client:
`new URL(endpoint, origin)` records the endpoint and the origin it is
resolved against; `searchParams.append` grows `params` in call order. -/
structure URLModel where
  endpoint : String
  origin : String
  params : List (String × String)
deriving Repr, DecidableEq

/-- `new URL(endpoint, origin)`: no query parameters appended yet. -/
def mkURL (endpoint origin : String) : URLModel :=
  { endpoint := endpoint, origin := origin, params := [] }

/-- The `get` method's query loop: `Object.keys(query).forEach` appends
each key in order, skipping entries whose value is `undefined`. -/
def appendQuery (u : URLModel) : Option (List (String × Option String)) → URLModel
  | none => u
  | some q =>
      { u with params := u.params ++ q.filterMap (fun p => p.2.map (fun v => (p.1, v))) }

/-- The non-`undefined` query entries, in provided order. -/
def filteredQuery (q : Option (List (String × Option String))) : List (String × String) :=
  match q with
  | none => []
  | some l => l.filterMap (fun p => p.2.map (fun v => (p.1, v)))

/-- `getHeaders(headers)`: the object literal
`\x7b "Content-Type": "application/json", ...headers \x7d`.
Headers are modelled as an association list where a later binding
overrides an earlier one (JS spread semantics under `hget` lookup). -/
def getHeaders (headers : Option (List (String × String))) : List (String × String) :=
  ("Content-Type", "application/json") :: headers.getD []

/-- Lookup in a header list under JS-object override semantics:
the last binding of a key wins. -/
def hget (hs : List (String × String)) (k : String) : Option String :=
  hs.foldl (fun acc p => if p.1 = k then some p.2 else acc) none

/-- A request body: JSON text from `JSON.stringify`, or a `FormData`
multipart form with one field per `append` call. -/
inductive ReqBody where
  | jsonText (s : String)
  | form (fields : List (String × JVal))
deriving Repr

/-- The request handed to `fetch`: URL, method, headers, optional body. -/
structure Request where
  url : URLModel
  method : String
  headers : List (String × String)
  body : Option ReqBody
deriving Repr

/-- `Object.keys(data).forEach(key => formData.append(key, data[key]))`:
an object contributes its fields; `upload` is only meaningful on object
`data` (the source would throw on `undefined`), other shapes contribute
no fields in the model. -/
def formFields : Option JVal → List (String × JVal)
  | some (.obj fields) => fields
  | _ => []

/-- `BaseApiService.get`: builds the URL from endpoint and origin, appends
the non-`undefined` query entries, sends no body. -/
def getRequest (env : Option String) (rcfg : RequestConfig) : Request :=
  { url := appendQuery (mkURL rcfg.endpoint (apiOrigin env)) rcfg.query,
    method := "GET",
    headers := getHeaders rcfg.headers,
    body := none }

/-- `BaseApiService.post`: JSON body from `JSON.stringify(rcfg.data)`;
`rcfg.query` is never read.  `JSON.stringify(undefined)` is `undefined`,
so absent `data` yields no body. -/
def postRequest (env : Option String) (rcfg : RequestConfig) : Request :=
  { url := mkURL rcfg.endpoint (apiOrigin env),
    method := "POST",
    headers := getHeaders rcfg.headers,
    body := rcfg.data.map (fun d => ReqBody.jsonText (jsonStringify d)) }

/-- `BaseApiService.put`: same shape as `post` with method `PUT`. -/
def putRequest (env : Option String) (rcfg : RequestConfig) : Request :=
  { url := mkURL rcfg.endpoint (apiOrigin env),
    method := "PUT",
    headers := getHeaders rcfg.headers,
    body := rcfg.data.map (fun d => ReqBody.jsonText (jsonStringify d)) }

/-- `BaseApiService.patch`: same shape as `post` with method `PATCH`. -/
def patchRequest (env : Option String) (rcfg : RequestConfig) : Request :=
  { url := mkURL rcfg.endpoint (apiOrigin env),
    method := "PATCH",
    headers := getHeaders rcfg.headers,
    body := rcfg.data.map (fun d => ReqBody.jsonText (jsonStringify d)) }

/-- `BaseApiService.delete`: like `get` but without the query loop and
with method `DELETE`; no body. -/
def deleteRequest (env : Option String) (rcfg : RequestConfig) : Request :=
  { url := mkURL rcfg.endpoint (apiOrigin env),
    method := "DELETE",
    headers := getHeaders rcfg.headers,
    body := none }

/-- `BaseApiService.upload`: multipart `FormData` body built from the
entries of `rcfg.data`; headers still come from `getHeaders`;
`rcfg.query` is never read; method is `POST`. -/
def uploadRequest (env : Option String) (rcfg : RequestConfig) : Request :=
  { url := mkURL rcfg.endpoint (apiOrigin env),
    method := "POST",
    headers := getHeaders rcfg.headers,
    body := some (.form (formFields rcfg.data)) }

/-- The six verb methods of the class. -/
inductive Verb where
  | get | post | put | patch | delete | upload
deriving Repr, DecidableEq

/-- Dispatch to the verb's request builder. -/
def buildRequest : Verb → Option String → RequestConfig → Request
  | .get, env, rcfg => getRequest env rcfg
  | .post, env, rcfg => postRequest env rcfg
  | .put, env, rcfg => putRequest env rcfg
  | .patch, env, rcfg => patchRequest env rcfg
  | .delete, env, rcfg => deleteRequest env rcfg
  | .upload, env, rcfg => uploadRequest env rcfg

/-- The platform response as seen by `handleResponse`: status line data,
the response URL, and the result of `response.json()` — `none` when the
body is not valid JSON (the parse throws). -/
structure Response where
  status : Nat
  statusText : String
  url : String
  body : Option JVal
deriving Repr

/-- `response.ok`: status in the inclusive range 200–299. -/
def Response.isOk (r : Response) : Bool :=
  decide (200 ≤ r.status) && decide (r.status ≤ 299)

/-- The structured context attached as the thrown error's `cause`. -/
structure ErrorInfo where
  status : Nat
  statusText : String
  url : String
  errors : Option JVal
deriving Repr

/-- How a verb call fails: the body parse threw (`parseError`), or the
status was non-2xx and `new Error(json.message, \x7b cause \x7d)` was thrown. -/
inductive HandleError where
  | parseError
  | requestFailed (message : String) (cause : ErrorInfo)
deriving Repr

/-- `BaseApiService.handleResponse`: parse the body as JSON first (a parse
failure propagates regardless of status); then on non-ok status throw an
error carrying `json.message` and `\x7bstatus, statusText, url, errors\x7d`;
otherwise return the parsed body unchanged. -/
def handleResponse (r : Response) : Except HandleError JVal :=
  match r.body with
  | none => .error .parseError
  | some json =>
      if !r.isOk then
        .error (.requestFailed (messageOf (jget json "message"))
          { status := r.status, statusText := r.statusText,
            url := r.url, errors := jget json "errors" })
      else
        .ok json

/-- A whole verb call: build the request, let the platform produce a
response (`fetchFn` models `fetch` plus the network), handle it. -/
def runVerb (v : Verb) (env : Option String) (rcfg : RequestConfig)
    (fetchFn : Request → Response) : Except HandleError JVal :=
  handleResponse (fetchFn (buildRequest v env rcfg))

/-- The fixed header pair merged last inside `withCredentials`. -/
def credentialHeaders : List (String × String) :=
  [("Content-Type", "application/json"), ("credentials", "include")]

/-- `withCredentials`' `baseFn` rewrites the config before dispatch:
`\x7b ...rcfg, headers: \x7b ...rcfg.headers, ...headers \x7d \x7d` —
the fixed pair is spread after the caller's headers. -/
def withCredentialsConfig (rcfg : RequestConfig) : RequestConfig :=
  { rcfg with headers := some (rcfg.headers.getD [] ++ credentialHeaders) }

/-- The five verbs exposed by the object `withCredentials()` returns. -/
inductive CredVerb where
  | get | post | put | patch | delete
deriving Repr, DecidableEq

/-- The underlying method each `withCredentials` entry dispatches to. -/
def CredVerb.toVerb : CredVerb → Verb
  | .get => .get
  | .post => .post
  | .put => .put
  | .patch => .patch
  | .delete => .delete

/-- A call through a `withCredentials`-derived operation. -/
def withCredentialsRun (v : CredVerb) (env : Option String) (rcfg : RequestConfig)
    (fetchFn : Request → Response) : Except HandleError JVal :=
  runVerb v.toVerb env (withCredentialsConfig rcfg) fetchFn

end BaseApiService

/-! ### Concrete example values used to exercise the definitions -/

namespace BaseApiService

/-- A minimal config: endpoint only. -/
def plainCfg : RequestConfig :=
  { endpoint := "/u"
    data := none
    headers := none
    query := none }

/-- A config carrying one query parameter. -/
def pageCfg : RequestConfig :=
  { endpoint := "/users"
    data := none
    headers := none
    query := some [("page", some "2")] }

/-- A config carrying JSON data. -/
def dataCfg : RequestConfig :=
  { endpoint := "/users"
    data := some (.obj [("name", .str "Ada")])
    headers := none
    query := none }

/-- A config with object data for `upload`. -/
def uploadCfg : RequestConfig :=
  { endpoint := "/files"
    data := some (.obj [("file", .str "payload")])
    headers := none
    query := none }

/-- An upload config with a caller header that is not `Content-Type`. -/
def customHeaderCfg : RequestConfig :=
  { endpoint := "/files"
    data := some (.obj [("file", .str "payload")])
    headers := some [("X-Trace", "abc")]
    query := none }

/-- A parsed 400-response body with `message` and `errors` fields. -/
def errBody : JVal :=
  .obj [("message", .str "invalid name"), ("errors", .obj [("name", .str "required")])]

/-- A failing response carrying `errBody`. -/
def failResp : Response :=
  { status := 400
    statusText := "Bad Request"
    url := "http://localhost:3001/users"
    body := some errBody }

/-- A successful response with a JSON body. -/
def okResp : Response :=
  { status := 200
    statusText := "OK"
    url := "http://localhost:3001/users"
    body := some (.obj [("message", .str "ok")]) }

/-- A failing response whose body is not valid JSON. -/
def noJsonResp : Response :=
  { status := 500
    statusText := "Internal Server Error"
    url := "http://localhost:3001/users"
    body := none }

/-- A network that always answers with `failResp`. -/
def fetch400 : Request → Response := fun _ => failResp

/-- A network that always answers with `okResp`. -/
def okFetch : Request → Response := fun _ => okResp

/-- A network that always answers with `noJsonResp`. -/
def fetchNoJson : Request → Response := fun _ => noJsonResp

end BaseApiService

/-! ### Lemmas about header lookup -/

namespace BaseApiService

/-- Folding the override step from any accumulator: a binding in `l`
wins, otherwise the accumulator survives. -/
lemma hget_foldl (k : String) (l : List (String × String)) (a : Option String) :
    List.foldl (fun acc p => if p.1 = k then some p.2 else acc) a l =
      (hget l k).elim a some := by
  induction l generalizing a with
  | nil => rfl
  | cons p t ih =>
    simp only [List.foldl_cons]
    rw [ih]
    have h2 : hget (p :: t) k = (hget t k).elim (if p.1 = k then some p.2 else none) some := by
      simp only [hget, List.foldl_cons]
      exact ih _
    rw [h2]
    cases hget t k with
    | some v => rfl
    | none =>
      by_cases hp : p.1 = k <;> simp [hp]

/-- Header lookup of a cons in terms of the tail. -/
lemma hget_cons (p : String × String) (t : List (String × String)) (k : String) :
    hget (p :: t) k = (hget t k).elim (if p.1 = k then some p.2 else none) some := by
  simp only [hget, List.foldl_cons]
  exact hget_foldl k t _

/-- Header lookup across append: the suffix wins when it binds the key. -/
lemma hget_append (xs ys : List (String × String)) (k : String) :
    hget (xs ++ ys) k = (hget ys k).elim (hget xs k) some := by
  simp only [hget, List.foldl_append]
  exact hget_foldl k ys _

/-- A key bound by no entry looks up to `none`. -/
lemma hget_eq_none (l : List (String × String)) (k : String)
    (h : ∀ p ∈ l, p.1 ≠ k) : hget l k = none := by
  induction l with
  | nil => rfl
  | cons p t ih =>
    have h1 : hget t k = none := ih (fun q hq => h q (List.mem_cons_of_mem p hq))
    have h2 : p.1 ≠ k := h p (List.mem_cons_self p t)
    rw [hget_cons, h1]
    simp [h2]

/-- With pairwise-distinct keys, membership determines the lookup. -/
lemma hget_of_mem_nodup (l : List (String × String)) (k v : String)
    (hm : (k, v) ∈ l) (hnd : (l.map Prod.fst).Nodup) : hget l k = some v := by
  induction l with
  | nil => cases hm
  | cons p t ih =>
    rw [List.map_cons, List.nodup_cons] at hnd
    rcases List.mem_cons.mp hm with heq | hmt
    · rw [← heq] at hnd
      have hnone : hget t k = none := by
        apply hget_eq_none
        intro q hq hqk
        have hq1 : q.1 ∈ List.map Prod.fst t := List.mem_map_of_mem Prod.fst hq
        rw [hqk] at hq1
        exact hnd.1 hq1
      rw [hget_cons, hnone, ← heq]
      simp
    · rw [hget_cons, ih hmt hnd.2]
      rfl

end BaseApiService

/-! ### Claim theorems -/

namespace BaseApiService

/-- The message of an error thrown with a string `message` field. -/
lemma messageOf_str (s : String) : messageOf (some (.str s)) = s := by
  simp [messageOf, jsToString]

/-- C1: the claimed query law holds for `get` but fails for every other
verb: with `query = \x7bpage: "2"\x7d`, `get` issues `?page=2` while
`post`, `put`, `patch`, `delete` and `upload` never read `rcfg.query`
and issue the URL with no query parameters, contradicting the
`RequestConfig` JSDoc ("Query parameters to be appended to the URL"). -/
theorem C1_query_dropped :
    (getRequest none pageCfg).url.params = [("page", "2")] ∧
    (postRequest none pageCfg).url.params = [] ∧
    (putRequest none pageCfg).url.params = [] ∧
    (patchRequest none pageCfg).url.params = [] ∧
    (deleteRequest none pageCfg).url.params = [] ∧
    (uploadRequest none pageCfg).url.params = [] :=
  ⟨rfl, rfl, rfl, rfl, rfl, rfl⟩

/-- C2: for every verb, a response outside 200–299 whose JSON body has a
string `message` field makes the call fail with exactly that message and
the context `\x7bstatus, statusText, url, errors\x7d` taken from the
response and the parsed body. -/
theorem C2_requestFailed (v : Verb) (env : Option String) (rcfg : RequestConfig)
    (fetchFn : Request → Response) (json : JVal) (m : String)
    (hbody : (fetchFn (buildRequest v env rcfg)).body = some json)
    (hfail : (fetchFn (buildRequest v env rcfg)).isOk = false)
    (hmsg : jget json "message" = some (.str m)) :
    runVerb v env rcfg fetchFn =
      .error (.requestFailed m
        { status := (fetchFn (buildRequest v env rcfg)).status
          statusText := (fetchFn (buildRequest v env rcfg)).statusText
          url := (fetchFn (buildRequest v env rcfg)).url
          errors := jget json "errors" }) := by
  unfold runVerb handleResponse
  rw [hbody, hfail]
  simp [hmsg, messageOf_str]

/-- C2 witness at a concrete 400 response. -/
theorem C2_requestFailed_witness :
    (fetch400 (buildRequest .get none plainCfg)).body = some errBody ∧
    (fetch400 (buildRequest .get none plainCfg)).isOk = false ∧
    jget errBody "message" = some (.str "invalid name") ∧
    runVerb .get none plainCfg fetch400 =
      .error (.requestFailed "invalid name"
        { status := 400
          statusText := "Bad Request"
          url := "http://localhost:3001/users"
          errors := some (.obj [("name", .str "required")]) }) :=
  ⟨rfl, rfl, rfl,
    C2_requestFailed .get none plainCfg fetch400 errBody "invalid name" rfl rfl rfl⟩

/-- C3: for every verb, a response with status 200–299 whose body parses
as JSON returns exactly the parsed body, unmodified. -/
theorem C3_success (v : Verb) (env : Option String) (rcfg : RequestConfig)
    (fetchFn : Request → Response) (json : JVal)
    (hbody : (fetchFn (buildRequest v env rcfg)).body = some json)
    (hok : (fetchFn (buildRequest v env rcfg)).isOk = true) :
    runVerb v env rcfg fetchFn = .ok json := by
  unfold runVerb handleResponse
  rw [hbody, hok]
  rfl

/-- C3 witness at a concrete 200 response. -/
theorem C3_success_witness :
    (okFetch (buildRequest .get none plainCfg)).body = some (.obj [("message", .str "ok")]) ∧
    (okFetch (buildRequest .get none plainCfg)).isOk = true ∧
    runVerb .get none plainCfg okFetch = .ok (.obj [("message", .str "ok")]) :=
  ⟨rfl, rfl, C3_success .get none plainCfg okFetch (.obj [("message", .str "ok")]) rfl rfl⟩

/-- C4: for every call through a `withCredentials`-derived operation and
any caller headers, the final headers carry
`Content-Type: application/json` and `credentials: include`; the fixed
pair is merged after the caller's and wins on those keys. -/
theorem C4_withCredentials (v : CredVerb) (env : Option String) (rcfg : RequestConfig) :
    hget (buildRequest v.toVerb env (withCredentialsConfig rcfg)).headers "Content-Type" =
      some "application/json" ∧
    hget (buildRequest v.toVerb env (withCredentialsConfig rcfg)).headers "credentials" =
      some "include" := by
  have hh : (buildRequest v.toVerb env (withCredentialsConfig rcfg)).headers =
      getHeaders (some (rcfg.headers.getD [] ++ credentialHeaders)) := by
    cases v <;> rfl
  rw [hh]
  unfold getHeaders
  simp only [Option.getD_some, ← List.cons_append]
  constructor
  · rw [hget_append]
    have hc : hget credentialHeaders "Content-Type" = some "application/json" := by decide
    rw [hc]
    rfl
  · rw [hget_append]
    have hc : hget credentialHeaders "credentials" = some "include" := by decide
    rw [hc]
    rfl

/-- C5: `getHeaders(custom)` contains every entry of `custom` (caller
wins on conflicts, including `Content-Type`), and still contains the
default `Content-Type: application/json` whenever `custom` does not bind
that key. -/
theorem C5_getHeaders (custom : List (String × String))
    (hnodup : (custom.map Prod.fst).Nodup) :
    (∀ kv ∈ custom, hget (getHeaders (some custom)) kv.1 = some kv.2) ∧
    ((∀ kv ∈ custom, kv.1 ≠ "Content-Type") →
      hget (getHeaders (some custom)) "Content-Type" = some "application/json") := by
  constructor
  · intro kv hkv
    unfold getHeaders
    simp only [Option.getD_some]
    rw [hget_cons, hget_of_mem_nodup custom kv.1 kv.2 (by rw [Prod.mk.eta]; exact hkv) hnodup]
    rfl
  · intro hct
    unfold getHeaders
    simp only [Option.getD_some]
    rw [hget_cons, hget_eq_none custom "Content-Type" hct]
    simp

/-- C5 witness at a concrete one-entry header map. -/
theorem C5_getHeaders_witness :
    (([("X-Auth", "t")].map Prod.fst).Nodup) ∧
    ((∀ kv ∈ [("X-Auth", "t")], hget (getHeaders (some [("X-Auth", "t")])) kv.1 = some kv.2) ∧
      ((∀ kv ∈ [("X-Auth", "t")], kv.1 ≠ "Content-Type") →
        hget (getHeaders (some [("X-Auth", "t")])) "Content-Type" = some "application/json")) :=
  ⟨by decide, C5_getHeaders [("X-Auth", "t")] (by decide)⟩

/-- C6: `upload` with a flat object as `config.data` sends a multipart
form with exactly one field per entry, same key, same value. -/
theorem C6_upload_form (env : Option String) (rcfg : RequestConfig)
    (fields : List (String × JVal)) (h : rcfg.data = some (.obj fields)) :
    (uploadRequest env rcfg).body = some (.form fields) := by
  simp [uploadRequest, formFields, h]

/-- C6 witness at a concrete one-field upload. -/
theorem C6_upload_form_witness :
    uploadCfg.data = some (.obj [("file", .str "payload")]) ∧
    (uploadRequest none uploadCfg).body = some (.form [("file", .str "payload")]) :=
  ⟨rfl, C6_upload_form none uploadCfg [("file", .str "payload")] rfl⟩

/-- C7: `post`, `put` and `patch` send `JSON.stringify(config.data)` as
the body; `get` and `delete` send no body. -/
theorem C7_bodies (env : Option String) (rcfg : RequestConfig) (d : JVal)
    (h : rcfg.data = some d) :
    (postRequest env rcfg).body = some (.jsonText (jsonStringify d)) ∧
    (putRequest env rcfg).body = some (.jsonText (jsonStringify d)) ∧
    (patchRequest env rcfg).body = some (.jsonText (jsonStringify d)) ∧
    (getRequest env rcfg).body = none ∧
    (deleteRequest env rcfg).body = none := by
  simp [postRequest, putRequest, patchRequest, getRequest, deleteRequest, h]

/-- C7 witness at a concrete JSON payload. -/
theorem C7_bodies_witness :
    dataCfg.data = some (.obj [("name", .str "Ada")]) ∧
    ((postRequest none dataCfg).body =
        some (.jsonText (jsonStringify (.obj [("name", .str "Ada")]))) ∧
      (putRequest none dataCfg).body =
        some (.jsonText (jsonStringify (.obj [("name", .str "Ada")]))) ∧
      (patchRequest none dataCfg).body =
        some (.jsonText (jsonStringify (.obj [("name", .str "Ada")]))) ∧
      (getRequest none dataCfg).body = none ∧
      (deleteRequest none dataCfg).body = none) :=
  ⟨rfl, C7_bodies none dataCfg (.obj [("name", .str "Ada")]) rfl⟩

/-- C8: for every verb and any status, a body that does not parse as
JSON fails the call with the parse failure itself — not a
`requestFailed` error. -/
theorem C8_parse_failure (v : Verb) (env : Option String) (rcfg : RequestConfig)
    (fetchFn : Request → Response)
    (h : (fetchFn (buildRequest v env rcfg)).body = none) :
    runVerb v env rcfg fetchFn = .error .parseError := by
  unfold runVerb handleResponse
  rw [h]

/-- C8 witness: a 500 response with a non-JSON body yields the parse
failure, not a `requestFailed` error. -/
theorem C8_parse_failure_witness :
    (fetchNoJson (buildRequest .get none plainCfg)).body = none ∧
    runVerb .get none plainCfg fetchNoJson = .error .parseError :=
  ⟨rfl, C8_parse_failure .get none plainCfg fetchNoJson rfl⟩

/-- C9 counterexample: with the environment variable set to the empty
string, the origin is the default, not the env-provided value — JS `||`
also falls back on the falsy empty string. -/
theorem C9_counterexample :
    apiOrigin (some "") ≠ "" ∧
    (getRequest (some "") plainCfg).url.origin = "http://localhost:3001" := by
  constructor
  · decide
  · rfl

/-- C9 (amended): every verb resolves against
`process.env.API_URL || "http://localhost:3001"`: the env value when it
is set and non-empty, the default when it is unset or empty. -/
theorem C9_origin (v : Verb) (env : Option String) (rcfg : RequestConfig) :
    (buildRequest v env rcfg).url.origin = apiOrigin env ∧
    (∀ s : String, s ≠ "" → apiOrigin (some s) = s) ∧
    apiOrigin none = "http://localhost:3001" ∧
    apiOrigin (some "") = "http://localhost:3001" := by
  refine ⟨?_, ?_, rfl, rfl⟩
  · obtain ⟨e, d, hh, q⟩ := rcfg
    cases q <;> cases v <;> rfl
  · intro s hs
    simp [apiOrigin, hs]

/-- C9 witness at a concrete non-empty env value. -/
theorem C9_origin_witness :
    ("https://api.example.com" : String) ≠ "" ∧
    apiOrigin (some "https://api.example.com") = "https://api.example.com" :=
  ⟨by decide, (C9_origin .get none plainCfg).2.1 "https://api.example.com" (by decide)⟩

/-- C10: `upload` reuses `getHeaders`, so when the caller does not set
`Content-Type` the request carries `Content-Type: application/json`
even though its body is a multipart form. -/
theorem C10_upload_headers (env : Option String) (rcfg : RequestConfig)
    (h : ∀ kv ∈ rcfg.headers.getD [], kv.1 ≠ "Content-Type") :
    hget (uploadRequest env rcfg).headers "Content-Type" = some "application/json" ∧
    (uploadRequest env rcfg).body = some (.form (formFields rcfg.data)) := by
  constructor
  · show hget (getHeaders rcfg.headers) "Content-Type" = _
    unfold getHeaders
    rw [hget_cons, hget_eq_none (rcfg.headers.getD []) "Content-Type" h]
    simp
  · rfl

/-- C10 witness at a concrete upload with a non-`Content-Type` header. -/
theorem C10_upload_headers_witness :
    (∀ kv ∈ customHeaderCfg.headers.getD [], kv.1 ≠ "Content-Type") ∧
    hget (uploadRequest none customHeaderCfg).headers "Content-Type" =
      some "application/json" :=
  ⟨by decide, (C10_upload_headers none customHeaderCfg (by decide)).1⟩

end BaseApiService
